import Mathlib

/-!
Verification of the derived-metrics engine of the TravelMap dashboard
(src/app.py).

The engine is the pandas pipeline that, on every rerun, derives per-trip
`days`, `cost_per_day`, `food_cost_usd_from_meals`, `food_cost_usd_final`
and `year` (src/app.py lines 348-381 and 525-547), the filtered summary
metrics (lines 571-577), and the workability score (lines 999-1007).

Shallow-embedding conventions:
- A dataframe cell that may be NaN/NaT/NA is an `Option` value.  The
  source coerces numeric columns with `pd.to_numeric(..., errors="coerce")`
  and dates with `pd.to_datetime(..., errors="coerce")`; both are identities
  on already-coerced data, so rows are modelled in the post-coercion domain
  (`Option Rat` for floats, `Option Int` day ordinals for timestamps).
- Floating point arithmetic is modelled by exact `Rat` arithmetic;
  `Series.round(2)` is round-half-to-even at two decimals (numpy rounding).
- A trips table whose uploaded column set matters is a `TripsTable`:
  its `cols` field lists the column names present before the
  "Ensure columns" block (lines 348-356), which synthesizes any missing
  column from the empty template, i.e. as an all-NA column.
-/

namespace TravelMap

/-- Day ordinal of a calendar date (days since 1970-01-01), the standard
civil-from-days algorithm; mirrors the day ordinals of pandas timestamps,
so `(end_date - start_date).dt.days` is the difference of ordinals. -/
def daysFromCivil (y m d : Int) : Int :=
  let yy := if m ≤ 2 then y - 1 else y
  let era := (if 0 ≤ yy then yy else yy - 399) / 400
  let yoe := yy - era * 400
  let mp := (m + 9) % 12
  let doy := (153 * mp + 2) / 5 + d - 1
  let doe := yoe * 365 + yoe / 4 - yoe / 100 + doy
  era * 146097 + doe - 719468

/-- Year of a day ordinal; models `Series.dt.year` (line 226-228,
`year_series`). -/
def yearFromDays (z : Int) : Int :=
  let z2 := z + 719468
  let era := (if 0 ≤ z2 then z2 else z2 - 146096) / 146097
  let doe := z2 - era * 146097
  let yoe := (doe - doe / 1460 + doe / 36524 - doe / 146096) / 365
  let y := yoe + era * 400
  let doy := doe - (365 * yoe + yoe / 4 - yoe / 100)
  let mp := (5 * doy + 2) / 153
  let m := if mp < 10 then mp + 3 else mp - 9
  if m ≤ 2 then y + 1 else y

/-- Round to the nearest integer, ties to even (numpy/pandas rounding). -/
def roundHalfEven (x : Rat) : Int :=
  let f := Int.floor x
  let r := x - (f : Rat)
  if r < 1 / 2 then f
  else if 1 / 2 < r then f + 1
  else if f % 2 = 0 then f else f + 1

/-- `Series.round(2)` of line 364/532. -/
def round2 (x : Rat) : Rat := ((roundHalfEven (x * 100) : Int) : Rat) / 100

/-- One row of the trips table, in the post-coercion domain, together with
the derived columns the engine (re)writes.  Descriptive text columns
(`trip_name`, `primary_city`, `country`) and the pure-display numeric
columns (`lat`, `lon`, the three other cost columns) do not feed any
derived metric and are projected away. -/
structure Trip where
  trip_id : Option Int := none
  start_date : Option Int := none
  end_date : Option Int := none
  total_cost_usd : Option Rat := none
  food_cost_usd : Option Rat := none
  internet_speed_mbps : Option Rat := none
  days : Option Int := none
  cost_per_day : Option Rat := none
  food_cost_usd_from_meals : Option Rat := none
  food_cost_usd_final : Option Rat := none
  year : Option Int := none
deriving DecidableEq

/-- One row of the meals table (engine-relevant columns). -/
structure Meal where
  meal_id : Option Int := none
  trip_id : Option Int := none
  cost_usd : Option Rat := none
deriving DecidableEq

/-- Lines 367-374 / 534-537: when the meals table is nonempty, group by
`trip_id` (NaN cost coerced to 0 by `fillna(0)`) and sum `cost_usd`; a
trip whose id heads no group gets NA from the left merge.  When the meals
table is empty the whole column is NA. -/
def food_from_meals (meals : List Meal) (tid : Option Int) : Option Rat :=
  if meals = [] then none
  else if meals.filter (fun m => decide (m.trip_id = tid)) = [] then none
  else some (((meals.filter (fun m => decide (m.trip_id = tid))).map
    (fun m => m.cost_usd.getD 0)).sum)

/-- Line 363/531: `(end_date - start_date).dt.days.clip(lower=1)`;
NaT dates propagate NA. -/
def daysFor (s e : Option Int) : Option Int :=
  match s, e with
  | some sd, some ed => some (max 1 (ed - sd))
  | _, _ => none

/-- Line 364/532: `(total_cost_usd.fillna(0) / days.replace({0:1})).round(2)`;
division by an NA `days` yields NA. -/
def cost_per_day_for (total : Option Rat) (d : Option Int) : Option Rat :=
  match d with
  | none => none
  | some dv => some (round2 (total.getD 0 / (((if dv = 0 then 1 else dv) : Int) : Rat)))

/-- The per-row effect of the re-derivation block (lines 527-544): every
derived column is overwritten from the raw columns; line 543 is
`from_meals.where(notna, food_cost_usd).fillna(0).clip(lower=0)`. -/
def recomputeTrip (meals : List Meal) (t : Trip) : Trip :=
  { t with
    days := daysFor t.start_date t.end_date
    cost_per_day := cost_per_day_for t.total_cost_usd (daysFor t.start_date t.end_date)
    food_cost_usd_from_meals := food_from_meals meals t.trip_id
    food_cost_usd_final :=
      some (max 0 ((food_from_meals meals t.trip_id).getD (t.food_cost_usd.getD 0)))
    year := t.start_date.map yearFromDays }

/-- The full re-derivation pass of lines 525-547 (the variant that first
drops a stale `food_cost_usd_from_meals` column, line 538, so the merge
never collides). -/
def recompute (trips : List Trip) (meals : List Meal) : List Trip :=
  trips.map (recomputeTrip meals)

/-- The first derivation pass, lines 358-381.  Unlike line 538, the merge
at line 372 does NOT drop a pre-existing `food_cost_usd_from_meals`
column.  When the input table already carries that column (every table
stored back to session state at line 380/546 does) and the meals table is
nonempty, pandas suffixes the colliding column to `_x`/`_y`, and the
lookup `trips["food_cost_usd_from_meals"]` at line 377 raises `KeyError`.
`hasFoodFromMealsCol` is that one relevant bit of the input column set. -/
def pass1 (hasFoodFromMealsCol : Bool) (trips : List Trip) (meals : List Meal) :
    Except String (List Trip) :=
  if meals ≠ [] ∧ hasFoodFromMealsCol = true then
    Except.error "KeyError: food_cost_usd_from_meals"
  else Except.ok (trips.map (recomputeTrip meals))

/-- An uploaded/provided trips table: its rows plus the set of column
names actually present in the upload. -/
structure TripsTable where
  rows : List Trip
  cols : List String
deriving DecidableEq

/-- The "Ensure columns" block, lines 348-356: a required column that is
absent is synthesized from the empty template (line 352-353) and an absent
optional numeric column is added as an empty float series (line 355-356);
either way every row reads NA in that column. -/
def ensureColumns (tt : TripsTable) : List Trip :=
  tt.rows.map (fun r =>
    { r with
      trip_id := if tt.cols.contains "trip_id" then r.trip_id else none
      start_date := if tt.cols.contains "start_date" then r.start_date else none
      end_date := if tt.cols.contains "end_date" then r.end_date else none
      total_cost_usd := if tt.cols.contains "total_cost_usd" then r.total_cost_usd else none
      food_cost_usd := if tt.cols.contains "food_cost_usd" then r.food_cost_usd else none
      internet_speed_mbps :=
        if tt.cols.contains "internet_speed_mbps" then r.internet_speed_mbps else none })

/-- Column synthesis (lines 348-356) followed by the derivation block:
what the engine actually does to a provided table. -/
def recomputePipeline (tt : TripsTable) (meals : List Meal) : List Trip :=
  (ensureColumns tt).map (recomputeTrip meals)

/-- Insert into a sorted list of rationals. -/
def insertSorted (x : Rat) : List Rat → List Rat
  | [] => [x]
  | y :: ys => if x ≤ y then x :: y :: ys else y :: insertSorted x ys

/-- Sort a list of rationals (ascending). -/
def sortRat (l : List Rat) : List Rat := l.foldr insertSorted []

/-- `Series.median` over the non-NA values: middle element, or the mean of
the two middle elements. -/
def median (l : List Rat) : Rat :=
  let s := sortRat l
  let n := s.length
  if n % 2 = 1 then s.getD (n / 2) 0
  else (s.getD (n / 2 - 1) 0 + s.getD (n / 2) 0) / 2

/-- Line 571: `t["total_cost_usd"].sum() if len(t) else 0` (pandas sum
skips NaN). -/
def total_spend (t : List Trip) : Rat :=
  if t = [] then 0 else (t.map (fun x => x.total_cost_usd.getD 0)).sum

/-- Line 574: `t["cost_per_day"].median() if len(t) else 0`.  On the
nonempty branch pandas drops NaN first and returns NaN when nothing
remains; `none` is that NaN. -/
def med_cpd (t : List Trip) : Option Rat :=
  if t = [] then some 0
  else if t.filterMap (fun x => x.cost_per_day) = [] then none
  else some (median (t.filterMap (fun x => x.cost_per_day)))

/-- Line 575: mean internet speed over non-missing values, NaN when the
selection is empty or no value is present. -/
def avg_speed (t : List Trip) : Option Rat :=
  if t = [] then none
  else if t.filterMap (fun x => x.internet_speed_mbps) = [] then none
  else some ((t.filterMap (fun x => x.internet_speed_mbps)).sum /
    ((t.filterMap (fun x => x.internet_speed_mbps)).length : Rat))

/-- Lines 576-577: `speed_series = t["internet_speed_mbps"].dropna()`;
`pct_good = (speed_series >= 25).mean()*100 if len(speed_series) else nan`. -/
def pct_good (t : List Trip) : Option Rat :=
  if t.filterMap (fun x => x.internet_speed_mbps) = [] then none
  else some ((((t.filterMap (fun x => x.internet_speed_mbps)).filter
      (fun v => decide (25 ≤ v))).length : Rat) /
    ((t.filterMap (fun x => x.internet_speed_mbps)).length : Rat) * 100)

/-- `Series.min()` of a nonempty column (the `[]` default is never used by
the theorems below). -/
def listMin : List Rat → Rat
  | [] => 0
  | x :: xs => xs.foldl min x

/-- `Series.max()` of a nonempty column. -/
def listMax : List Rat → Rat
  | [] => 0
  | x :: xs => xs.foldl max x

/-- The min-max normalization pattern of lines 1002 and 1006:
`(v - min)/(max - min)` when `max > min`, otherwise the scalar `1.0`. -/
def minmaxNorm (l : List Rat) (v : Rat) : Rat :=
  if listMin l < listMax l then (v - listMin l) / (listMax l - listMin l) else 1

/-- Line 999: the scoring basis,
`t.dropna(subset=["internet_speed_mbps", "cost_per_day"])`. -/
def score_df (t : List Trip) : List Trip :=
  t.filter (fun x => x.internet_speed_mbps.isSome && x.cost_per_day.isSome)

/-- Lines 1001-1002: normalize a row's speed against the basis column. -/
def speed_norm (b : List Trip) (x : Trip) : Rat :=
  minmaxNorm (b.filterMap (fun y => y.internet_speed_mbps)) (x.internet_speed_mbps.getD 0)

/-- Line 1003: `1.0 / cost_per_day.replace(0, NA)`. -/
def inv_cost_raw (x : Trip) : Option Rat :=
  x.cost_per_day.bind (fun c => if c = 0 then none else some (1 / c))

/-- Line 1004, the fillna argument: the max finite `inv_cost` of the
basis, or `1.0` when none exists. -/
def inv_cost_fill (b : List Trip) : Rat :=
  if b.filterMap inv_cost_raw = [] then 1 else listMax (b.filterMap inv_cost_raw)

/-- Line 1004: the filled `inv_cost` column value of a row. -/
def inv_cost (b : List Trip) (x : Trip) : Rat :=
  (inv_cost_raw x).getD (inv_cost_fill b)

/-- Lines 1005-1006: normalize the filled `inv_cost` column. -/
def afford_norm (b : List Trip) (x : Trip) : Rat :=
  minmaxNorm (b.map (inv_cost b)) (inv_cost b x)

/-- Line 1007: `100 * (0.6 * speed_norm + 0.4 * afford_norm)`. -/
def workability_score (b : List Trip) (x : Trip) : Rat :=
  100 * (0.6 * speed_norm b x + 0.4 * afford_norm b x)

/-- Lines 1000-1008: the scored table (each basis row with its score);
empty when the basis is empty. -/
def scoreTable (t : List Trip) : List (Trip × Rat) :=
  if 1 ≤ (score_df t).length then
    (score_df t).map (fun x => (x, workability_score (score_df t) x))
  else []

/-! Concrete rows used by witnesses and counterexamples. -/

/-- Two meals for trip 1 summing to 150 (the reconciliation example of the
spec). -/
def exMealsC1 : List Meal :=
  [{ meal_id := some 1, trip_id := some 1, cost_usd := some 70 },
   { meal_id := some 2, trip_id := some 1, cost_usd := some 80 }]

/-- Trip 1 with a conflicting manual food total of 300. -/
def exTripC1 : Trip := { trip_id := some 1, food_cost_usd := some 300 }

/-- The spec example: total 2000, 2023-03-15 to 2023-03-22. -/
def exTrip2 : Trip :=
  { trip_id := some 1, start_date := some (daysFromCivil 2023 3 15),
    end_date := some (daysFromCivil 2023 3 22), total_cost_usd := some 2000 }

/-- A trip with dates but a missing total. -/
def exTrip2b : Trip := { trip_id := some 2, start_date := some 0, end_date := some 10 }

/-- A trip with inverted dates (end before start). -/
def exTripInv : Trip := { trip_id := some 3, start_date := some 100, end_date := some 90 }

/-- A trip whose start date failed to parse (NaT). -/
def exTripNoDate : Trip := { trip_id := some 4, end_date := some 5 }

/-- A fully populated raw trip used for the rerun scenario. -/
def exTripC4 : Trip :=
  { trip_id := some 1, start_date := some 0, end_date := some 5,
    total_cost_usd := some 2000, food_cost_usd := some 300 }

/-- One meal referencing `exTripC4`. -/
def exMealC4 : Meal := { meal_id := some 1, trip_id := some 1, cost_usd := some 30 }

/-- An enriched trip with a defined speed and cost per day. -/
def exTripA : Trip := { trip_id := some 1, internet_speed_mbps := some 50, cost_per_day := some 100 }

/-- A second enriched trip with the same speed, different cost per day. -/
def exTripB : Trip := { trip_id := some 2, internet_speed_mbps := some 50, cost_per_day := some 200 }

/-- An enriched trip with a defined cost per day but no speed. -/
def exTripNoSpeed : Trip := { trip_id := some 9, cost_per_day := some 25 }

/-- An uploaded trips table that lacks the required `total_cost_usd`
column. -/
def exTT : TripsTable :=
  { rows := [{ trip_id := some 1, start_date := some 0, end_date := some 5 }],
    cols := ["trip_id", "trip_name", "start_date", "end_date"] }

/-- A selection row with no speed. -/
def exSpeedNone : Trip := { trip_id := some 7 }

/-- A selection row with speed 30. -/
def exSpeed30 : Trip := { trip_id := some 8, internet_speed_mbps := some 30 }

/-- A selection row with speed 10. -/
def exSpeed10 : Trip := { trip_id := some 9, internet_speed_mbps := some 10 }

/-! Helper lemmas about column minima and maxima. -/

lemma foldl_min_le (xs : List Rat) (a : Rat) : xs.foldl min a ≤ a := by
  induction xs generalizing a with
  | nil => exact le_refl a
  | cons x xs ih => exact le_trans (ih (min a x)) (min_le_left a x)

lemma foldl_min_le_mem : ∀ (xs : List Rat) (a v : Rat), v ∈ xs → xs.foldl min a ≤ v := by
  intro xs
  induction xs with
  | nil => intro a v h; cases h
  | cons x xs ih =>
    intro a v h
    rcases List.mem_cons.mp h with h1 | h2
    · subst h1
      exact le_trans (foldl_min_le xs (min a v)) (min_le_right a v)
    · exact ih (min a x) v h2

lemma listMin_le (l : List Rat) (v : Rat) (h : v ∈ l) : listMin l ≤ v := by
  cases l with
  | nil => cases h
  | cons x xs =>
    rcases List.mem_cons.mp h with h1 | h2
    · subst h1; exact foldl_min_le xs v
    · exact foldl_min_le_mem xs x v h2

lemma le_foldl_max (xs : List Rat) (a : Rat) : a ≤ xs.foldl max a := by
  induction xs generalizing a with
  | nil => exact le_refl a
  | cons x xs ih => exact le_trans (le_max_left a x) (ih (max a x))

lemma le_foldl_max_mem : ∀ (xs : List Rat) (a v : Rat), v ∈ xs → v ≤ xs.foldl max a := by
  intro xs
  induction xs with
  | nil => intro a v h; cases h
  | cons x xs ih =>
    intro a v h
    rcases List.mem_cons.mp h with h1 | h2
    · subst h1
      exact le_trans (le_max_right a v) (le_foldl_max xs (max a v))
    · exact ih (max a x) v h2

lemma le_listMax (l : List Rat) (v : Rat) (h : v ∈ l) : v ≤ listMax l := by
  cases l with
  | nil => cases h
  | cons x xs =>
    rcases List.mem_cons.mp h with h1 | h2
    · subst h1; exact le_foldl_max xs v
    · exact le_foldl_max_mem xs x v h2

lemma foldl_min_const : ∀ (xs : List Rat) (c : Rat), (∀ v ∈ xs, v = c) → xs.foldl min c = c := by
  intro xs
  induction xs with
  | nil => intro c h; rfl
  | cons x xs ih =>
    intro c h
    have hx : x = c := h x (List.mem_cons_self x xs)
    show xs.foldl min (min c x) = c
    rw [hx, min_self]
    exact ih c (fun v hv => h v (List.mem_cons_of_mem x hv))

lemma foldl_max_const : ∀ (xs : List Rat) (c : Rat), (∀ v ∈ xs, v = c) → xs.foldl max c = c := by
  intro xs
  induction xs with
  | nil => intro c h; rfl
  | cons x xs ih =>
    intro c h
    have hx : x = c := h x (List.mem_cons_self x xs)
    show xs.foldl max (max c x) = c
    rw [hx, max_self]
    exact ih c (fun v hv => h v (List.mem_cons_of_mem x hv))

lemma listMin_const (l : List Rat) (c : Rat) (h : ∀ v ∈ l, v = c) (hne : l ≠ []) :
    listMin l = c := by
  cases l with
  | nil => exact absurd rfl hne
  | cons x xs =>
    have hx : x = c := h x (List.mem_cons_self x xs)
    show xs.foldl min x = c
    rw [hx]
    exact foldl_min_const xs c (fun v hv => h v (List.mem_cons_of_mem x hv))

lemma listMax_const (l : List Rat) (c : Rat) (h : ∀ v ∈ l, v = c) (hne : l ≠ []) :
    listMax l = c := by
  cases l with
  | nil => exact absurd rfl hne
  | cons x xs =>
    have hx : x = c := h x (List.mem_cons_self x xs)
    show xs.foldl max x = c
    rw [hx]
    exact foldl_max_const xs c (fun v hv => h v (List.mem_cons_of_mem x hv))

lemma minmaxNorm_unit (l : List Rat) (v : Rat) (h : v ∈ l) :
    0 ≤ minmaxNorm l v ∧ minmaxNorm l v ≤ 1 := by
  unfold minmaxNorm
  by_cases hlt : listMin l < listMax l
  · rw [if_pos hlt]
    have h1 := listMin_le l v h
    have h2 := le_listMax l v h
    have hpos : 0 < listMax l - listMin l := by linarith
    constructor
    · exact div_nonneg (by linarith) (le_of_lt hpos)
    · rw [div_le_one hpos]; linarith
  · rw [if_neg hlt]
    exact ⟨zero_le_one, le_refl 1⟩

lemma filterMap_none {α β : Type} (f : α → Option β) (l : List α)
    (h : ∀ a ∈ l, f a = none) : l.filterMap f = [] := by
  induction l with
  | nil => rfl
  | cons a l ih =>
    simp only [List.filterMap_cons, h a (List.mem_cons_self a l)]
    exact ih (fun b hb => h b (List.mem_cons_of_mem a hb))

/-- C1: for every trip, the reconciled food cost equals the clamped meal
sum whenever at least one meal (after numeric coercion of `trip_id`)
references the trip, the clamped manual `food_cost_usd` (0 when missing)
when no meal does, and it is never negative.  Embeds lines 534-543 of
src/app.py. -/
theorem food_cost_usd_final_spec (meals : List Meal) (t : Trip) :
    (meals.filter (fun m => decide (m.trip_id = t.trip_id)) ≠ [] →
      (recomputeTrip meals t).food_cost_usd_final =
        some (max 0 (((meals.filter (fun m => decide (m.trip_id = t.trip_id))).map
          (fun m => m.cost_usd.getD 0)).sum))) ∧
    (meals.filter (fun m => decide (m.trip_id = t.trip_id)) = [] →
      (recomputeTrip meals t).food_cost_usd_final =
        some (max 0 (t.food_cost_usd.getD 0))) ∧
    (∀ v, (recomputeTrip meals t).food_cost_usd_final = some v → 0 ≤ v) := by
  have hfin : (recomputeTrip meals t).food_cost_usd_final =
      some (max 0 ((food_from_meals meals t.trip_id).getD (t.food_cost_usd.getD 0))) := rfl
  refine ⟨?_, ?_, ?_⟩
  · intro h
    have hm : ¬ (meals = []) := by
      intro he
      rw [he] at h
      exact h rfl
    rw [hfin]
    unfold food_from_meals
    rw [if_neg hm, if_neg h]
    rfl
  · intro h
    rw [hfin]
    unfold food_from_meals
    by_cases hm : meals = []
    · rw [if_pos hm]; rfl
    · rw [if_neg hm, if_pos h]; rfl
  · intro v hv
    rw [hfin] at hv
    rw [← Option.some.inj hv]
    exact le_max_left 0 _

/-- C1 witness: two meals of 70 and 80 reference trip 1 whose manual food
total is 300; the meal sum wins and the reconciled value is 150. -/
theorem food_cost_usd_final_spec_witness :
    (recomputeTrip exMealsC1 exTripC1).food_cost_usd_final = some 150 := by
  have h := (food_cost_usd_final_spec exMealsC1 exTripC1).1 (by decide)
  rw [h]
  norm_num [exMealsC1, exTripC1, max_def]

/-- C2: for every trip, `cost_per_day` is `total_cost_usd` (0 when
missing) divided by the derived `days`, rounded to two decimals, and NA
exactly when `days` is NA; on the spec example (total 2000, 2023-03-15 to
2023-03-22) it yields days 7 and 285.71, and a missing total divides to
0.  Embeds lines 529-532 of src/app.py. -/
theorem cost_per_day_spec :
    (∀ (meals : List Meal) (t : Trip),
      (recomputeTrip meals t).cost_per_day =
        (recomputeTrip meals t).days.map
          (fun d => round2 (t.total_cost_usd.getD 0 / (d : Rat)))) ∧
    (recomputeTrip [] exTrip2).days = some 7 ∧
    (recomputeTrip [] exTrip2).cost_per_day = some (285.71 : Rat) ∧
    (recomputeTrip [] exTrip2b).cost_per_day = some 0 := by
  refine ⟨?_, by decide, ?_, ?_⟩
  · intro meals t
    have hd : (recomputeTrip meals t).days = daysFor t.start_date t.end_date := rfl
    have hc : (recomputeTrip meals t).cost_per_day =
        cost_per_day_for t.total_cost_usd (daysFor t.start_date t.end_date) := rfl
    rw [hc, hd]
    cases hs : t.start_date with
    | none => simp [daysFor, cost_per_day_for]
    | some sd =>
      cases he : t.end_date with
      | none => simp [daysFor, cost_per_day_for]
      | some ed =>
        have hM : ¬ (max 1 (ed - sd) = 0) := by
          have h1 : (1 : Int) ≤ max 1 (ed - sd) := le_max_left 1 (ed - sd)
          omega
        simp [daysFor, cost_per_day_for, hM]
  · have hd : daysFor exTrip2.start_date exTrip2.end_date = some 7 := by decide
    show cost_per_day_for exTrip2.total_cost_usd
      (daysFor exTrip2.start_date exTrip2.end_date) = some (285.71 : Rat)
    rw [hd]
    show some (round2 ((2000 : Rat) / ((7 : Int) : Rat))) = some (285.71 : Rat)
    norm_num [round2, roundHalfEven]
  · have hd : daysFor exTrip2b.start_date exTrip2b.end_date = some 10 := by decide
    show cost_per_day_for exTrip2b.total_cost_usd
      (daysFor exTrip2b.start_date exTrip2b.end_date) = some 0
    rw [hd]
    show some (round2 ((0 : Rat) / ((10 : Int) : Rat))) = some 0
    norm_num [round2, roundHalfEven]

/-- C3 counterexample: a trip whose `start_date` failed to parse (NaT)
gets an NA `days`, not a value that is at least 1; the claim's
"regardless of otherwise malformed date values" does not hold. -/
theorem days_undefined_for_missing_date :
    ((recomputeTrip [] exTripNoDate).days).isSome = false := by decide

/-- C3 amended: whenever both dates are present (equal, inverted or
otherwise), `days` is the whole-day difference clamped below at 1, hence
at least 1; with a missing/unparseable date `days` is NA instead.  Embeds
line 531 of src/app.py. -/
theorem days_clamped (meals : List Meal) (t : Trip) (sd ed : Int)
    (h1 : t.start_date = some sd) (h2 : t.end_date = some ed) :
    (recomputeTrip meals t).days = some (max 1 (ed - sd)) ∧
    (1 : Int) ≤ max 1 (ed - sd) := by
  constructor
  · have hd : (recomputeTrip meals t).days = daysFor t.start_date t.end_date := rfl
    rw [hd, h1, h2]
    rfl
  · exact le_max_left 1 (ed - sd)

/-- C3 witness: an inverted trip (start 100, end 90) still gets
days = 1. -/
theorem days_clamped_witness :
    (recomputeTrip [] exTripInv).days = some 1 ∧ (1 : Int) ≤ 1 := by
  have h := days_clamped [] exTripInv 100 90 rfl rfl
  refine ⟨?_, le_refl 1⟩
  rw [h.1]
  decide

/-- C4: re-deriving is idempotent for the pass with the column drop
(lines 525-544), but the first derivation pass (lines 358-381) applied to
its own enriched output together with one meal raises `KeyError` instead
of returning the same table: the merge at line 372 does not drop the
existing `food_cost_usd_from_meals` column, so pandas suffixes it to
`_x`/`_y` and line 377 fails. -/
theorem pass1_rerun_keyerror :
    pass1 true (recompute [exTripC4] [exMealC4]) [exMealC4] =
      Except.error "KeyError: food_cost_usd_from_meals" ∧
    ∀ (trips : List Trip) (meals : List Meal),
      recompute (recompute trips meals) meals = recompute trips meals := by
  refine ⟨rfl, ?_⟩
  intro trips meals
  have h : ∀ u : Trip, recomputeTrip meals (recomputeTrip meals u) = recomputeTrip meals u :=
    fun u => rfl
  simp [recompute, List.map_map, Function.comp_def, h]

/-- C5: every row of the scoring basis gets exactly
`100 * (0.6 * speed_norm + 0.4 * afford_norm)`, and the score lies in
[0, 100].  Embeds lines 999-1007 of src/app.py. -/
theorem workability_score_bounds (t : List Trip) (x : Trip) (hx : x ∈ score_df t) :
    workability_score (score_df t) x =
      100 * (0.6 * speed_norm (score_df t) x + 0.4 * afford_norm (score_df t) x) ∧
    0 ≤ workability_score (score_df t) x ∧
    workability_score (score_df t) x ≤ 100 := by
  have hsp : x.internet_speed_mbps.isSome = true := by
    have h2 := (List.mem_filter.mp hx).2
    simp only [Bool.and_eq_true] at h2
    exact h2.1
  obtain ⟨v, hv⟩ := Option.isSome_iff_exists.mp hsp
  have hmem : x.internet_speed_mbps.getD 0 ∈
      (score_df t).filterMap (fun y => y.internet_speed_mbps) :=
    List.mem_filterMap.mpr ⟨x, hx, by rw [hv]; rfl⟩
  have hmem2 : inv_cost (score_df t) x ∈ (score_df t).map (inv_cost (score_df t)) :=
    List.mem_map_of_mem (inv_cost (score_df t)) hx
  have hs := minmaxNorm_unit ((score_df t).filterMap (fun y => y.internet_speed_mbps))
    (x.internet_speed_mbps.getD 0) hmem
  have ha := minmaxNorm_unit ((score_df t).map (inv_cost (score_df t)))
    (inv_cost (score_df t) x) hmem2
  refine ⟨rfl, ?_, ?_⟩
  · unfold workability_score speed_norm afford_norm
    have h06 : (0.6 : Rat) = 6 / 10 := by norm_num
    have h04 : (0.4 : Rat) = 4 / 10 := by norm_num
    rw [h06, h04]
    linarith [hs.1, ha.1]
  · unfold workability_score speed_norm afford_norm
    have h06 : (0.6 : Rat) = 6 / 10 := by norm_num
    have h04 : (0.4 : Rat) = 4 / 10 := by norm_num
    rw [h06, h04]
    linarith [hs.1, hs.2, ha.1, ha.2]

/-- C5 witness: the score of the one-trip basis `[exTripA]` satisfies the
formula and the bounds. -/
theorem workability_score_bounds_witness :
    workability_score (score_df [exTripA]) exTripA =
      100 * (0.6 * speed_norm (score_df [exTripA]) exTripA +
        0.4 * afford_norm (score_df [exTripA]) exTripA) ∧
    0 ≤ workability_score (score_df [exTripA]) exTripA ∧
    workability_score (score_df [exTripA]) exTripA ≤ 100 :=
  workability_score_bounds [exTripA] exTripA (by decide)

/-- C6: when every basis row has the same `internet_speed_mbps`, the
degenerate-range guard of line 1002 applies and every basis row gets
speed_norm = 1 (no zero-width division; in this exact model no NaN can
arise). -/
theorem speed_norm_uniform (t : List Trip) (c : Rat)
    (h : ∀ x ∈ score_df t, x.internet_speed_mbps = some c)
    (x : Trip) (hx : x ∈ score_df t) :
    speed_norm (score_df t) x = 1 := by
  have hall : ∀ v ∈ (score_df t).filterMap (fun y => y.internet_speed_mbps), v = c := by
    intro v hv
    obtain ⟨a, ha, hfa⟩ := List.mem_filterMap.mp hv
    rw [h a ha] at hfa
    exact (Option.some.inj hfa).symm
  have hne : (score_df t).filterMap (fun y => y.internet_speed_mbps) ≠ [] := by
    have hm : c ∈ (score_df t).filterMap (fun y => y.internet_speed_mbps) :=
      List.mem_filterMap.mpr ⟨x, hx, h x hx⟩
    intro hnil
    rw [hnil] at hm
    cases hm
  unfold speed_norm minmaxNorm
  rw [listMin_const _ c hall hne, listMax_const _ c hall hne]
  simp

/-- C6 witness: two basis trips both at 50 Mbps; the first gets
speed_norm = 1. -/
theorem speed_norm_uniform_witness :
    speed_norm (score_df [exTripA, exTripB]) exTripA = 1 :=
  speed_norm_uniform [exTripA, exTripB] 50 (by decide) exTripA (by decide)

/-- C7 counterexample: a trip with a defined cost per day but an
undefined `internet_speed_mbps` is dropped by line 999 and receives no
score row at all, refuting the claim that it gets speed_norm = 0.0 and
still receives a score. -/
theorem scoreTable_drops_undefined_speed : scoreTable [exTripNoSpeed] = [] := by decide

/-- C7 amended: every row of the scored table has a defined
`internet_speed_mbps`; trips with an undefined speed (or undefined
cost_per_day) are excluded from scoring entirely by the dropna at line
999. -/
theorem scoreTable_defined_speed (t : List Trip) (p : Trip × Rat)
    (hp : p ∈ scoreTable t) : p.1.internet_speed_mbps.isSome = true := by
  unfold scoreTable at hp
  by_cases hlen : 1 ≤ (score_df t).length
  · rw [if_pos hlen] at hp
    obtain ⟨x, hxb, hxp⟩ := List.mem_map.mp hp
    rw [← hxp]
    have h2 := (List.mem_filter.mp hxb).2
    simp only [Bool.and_eq_true] at h2
    exact h2.1
  · rw [if_neg hlen] at hp
    cases hp

/-- C7 witness: the scored row of the basis `[exTripA]` has a defined
speed. -/
theorem scoreTable_defined_speed_witness :
    ((exTripA, workability_score (score_df [exTripA]) exTripA) : Trip × Rat).1.internet_speed_mbps.isSome = true :=
  scoreTable_defined_speed [exTripA]
    (exTripA, workability_score (score_df [exTripA]) exTripA)
    (List.mem_singleton.mpr rfl)

/-- C8 counterexample: over an empty selection the median cost per day is
the value 0 (line 574 takes the `else 0` branch), not an undefined
sentinel distinguishable from 0. -/
theorem med_cpd_empty_zero : med_cpd [] = some 0 := by decide

/-- C8 amended: over an empty selection the summary yields count 0, total
spend 0 and median cost per day 0 (the NaN sentinels appear only for the
speed metrics), and every aggregate is total (never raises).  Embeds
lines 571-577 of src/app.py. -/
theorem filtered_summary_empty :
    ([] : List Trip).length = 0 ∧ total_spend [] = 0 ∧ med_cpd [] = some 0 ∧
    avg_speed [] = none ∧ pct_good [] = none := by decide

/-- C9 counterexample: a provided table that lacks the required
`total_cost_usd` column is not rejected: the engine synthesizes the
column as empty and still produces an enriched row for trip 1 (there is
no `SchemaError` anywhere in src/app.py). -/
theorem missing_column_no_abort :
    exTT.cols.contains "total_cost_usd" = false ∧
    (recomputePipeline exTT []).map (fun r => (r.trip_id, r.days)) = [(some 1, some 5)] := by
  constructor
  · decide
  · decide

/-- C9 amended: with the `total_cost_usd` column absent, recomputation
does not abort: it synthesizes the column as all-NA (lines 349-353),
produces one output row per input row, and every row with defined days
gets cost_per_day = 0. -/
theorem missing_column_synthesized (tt : TripsTable) (meals : List Meal)
    (h : tt.cols.contains "total_cost_usd" = false) :
    (recomputePipeline tt meals).length = tt.rows.length ∧
    ∀ r ∈ recomputePipeline tt meals, ∀ d, r.days = some d →
      r.cost_per_day = some 0 := by
  constructor
  · unfold recomputePipeline ensureColumns
    rw [List.length_map, List.length_map]
  · intro r hr d hd
    unfold recomputePipeline at hr
    obtain ⟨x, hx, hxr⟩ := List.mem_map.mp hr
    unfold ensureColumns at hx
    obtain ⟨r0, hr0, hx0⟩ := List.mem_map.mp hx
    have hxt : x.total_cost_usd = none := by
      rw [← hx0]
      show (if tt.cols.contains "total_cost_usd" = true then r0.total_cost_usd else none) = none
      rw [h]
      simp
    rw [← hxr] at hd ⊢
    have hdd : (recomputeTrip meals x).days = daysFor x.start_date x.end_date := rfl
    have hcc : (recomputeTrip meals x).cost_per_day =
        cost_per_day_for x.total_cost_usd (daysFor x.start_date x.end_date) := rfl
    rw [hdd] at hd
    rw [hcc, hxt, hd]
    show some (round2 ((0 : Rat) / _)) = some 0
    norm_num [round2, roundHalfEven]

/-- C9 witness: the pipeline applied to the concrete column-deficient
table `exTT` produces one row and zero cost_per_day for defined days. -/
theorem missing_column_synthesized_witness :
    (recomputePipeline exTT []).length = exTT.rows.length ∧
    ∀ r ∈ recomputePipeline exTT [], ∀ d, r.days = some d →
      r.cost_per_day = some 0 :=
  missing_column_synthesized exTT [] (by decide)

/-- C10: the share-of-trips-at-25-Mbps metric ignores selection rows with
an undefined speed (its denominator is the count of defined speeds, not
the selection size), and over a selection with no defined speed it is the
NaN sentinel, not 0 or 100.  Embeds lines 576-577 of src/app.py. -/
theorem pct_good_denominator (t : List Trip) (x : Trip)
    (h : x.internet_speed_mbps = none) :
    pct_good (x :: t) = pct_good t ∧
    ((∀ u ∈ t, u.internet_speed_mbps = none) → pct_good (x :: t) = none) := by
  have hfm : (x :: t).filterMap (fun y => y.internet_speed_mbps) =
      t.filterMap (fun y => y.internet_speed_mbps) := by
    simp only [List.filterMap_cons, h]
  constructor
  · unfold pct_good
    rw [hfm]
  · intro hall
    unfold pct_good
    rw [hfm, filterMap_none _ t hall]
    simp

/-- C10 witness: prepending a speedless trip to a two-trip selection
leaves the metric unchanged. -/
theorem pct_good_denominator_witness :
    pct_good (exSpeedNone :: [exSpeed30, exSpeed10]) = pct_good [exSpeed30, exSpeed10] ∧
    ((∀ u ∈ [exSpeed30, exSpeed10], u.internet_speed_mbps = none) →
      pct_good (exSpeedNone :: [exSpeed30, exSpeed10]) = none) :=
  pct_good_denominator [exSpeed30, exSpeed10] exSpeedNone rfl

end TravelMap
